import Mathlib

/-!
# GeoWaves turn-resolution engine: a shallow embedding

This file embeds the core simulation logic of the GeoWaves game
(turn resolver, event engine, outcome evaluator) in Lean 4 and proves
properties of it.

The repository contains two generations of the engine:

* the MVP version (`GameScene` in `src/unnamed/part_004`), embedded below
  in namespace `Mvp`: hard-coded constants, a simple risk-percentage event
  roll, an `endTurn` that clamps resources and then runs
  `checkGameConditions`;
* the current version (`src/src/scenes/GameScene.ts` plus
  `src/src/config/gameConfig.ts` and the data catalogs), embedded in
  namespace `Geo`: a configuration object, weighted/paced event selection
  (`handleSeismicEvents` / `getWeightedEvents`), `performAction` with an
  affordability guard, and passive rewards.

Numbers: all resource values and deltas in the source are integers, so
resources are embedded as `Int`.  The only non-integer quantities are the
uniform draws of `Math.random()` (embedded as an arbitrary rational
argument) and the event chance `baseChance + risk * riskMultiplier`
(computed in `ℚ`).  Localized `name`/`description` text fields are
presentational and not part of any resource computation; they are omitted
from the embedded catalog records.
-/

namespace Mvp

/-- Game constants of the MVP `GameScene` (`src/unnamed/part_004`). -/
def RESEARCH_NEEDED : Int := 50
def INITIAL_OPINION : Int := 100
def MAX_RISK : Int := 100
def MINOR_EVENT_THRESHOLD : Int := 50
def MINOR_EVENT_OPINION_LOSS : Int := 10
def MAJOR_EVENT_OPINION_LOSS : Int := 30
def MAJOR_EVENT_TURNS_LOSS : Int := 1
def HIGH_RISK_THRESHOLD : Int := 50
def HIGH_RISK_OPINION_LOSS : Int := 5

/-- Mutable scene fields of the MVP `GameScene`. -/
structure State where
  money : Int
  turnsRemaining : Int
  publicOpinion : Int
  risk : Int
  turn : Int
  researchPoints : Int
  deriving Repr, DecidableEq

inductive OutcomeKind where
  | win
  | lose
  deriving Repr, DecidableEq

/-- The payload passed to `GameOverScene` by `checkGameConditions`. -/
structure Outcome where
  outcome : OutcomeKind
  reason : String
  deriving Repr, DecidableEq

/-- `handleSeismicEvents` of the MVP version.  `d` is the value of
`Math.random()` (a uniform draw in `[0,1)`). -/
def handleSeismicEvents (s : State) (d : ℚ) : State :=
  let s1 :=
    if d * 100 < (s.risk : ℚ) then
      if s.risk < MINOR_EVENT_THRESHOLD then
        { s with publicOpinion := s.publicOpinion - MINOR_EVENT_OPINION_LOSS }
      else
        { s with publicOpinion := s.publicOpinion - MAJOR_EVENT_OPINION_LOSS,
                 turnsRemaining := s.turnsRemaining - MAJOR_EVENT_TURNS_LOSS }
    else s
  if s1.risk > HIGH_RISK_THRESHOLD then
    { s1 with publicOpinion := s1.publicOpinion - HIGH_RISK_OPINION_LOSS }
  else s1

/-- `Phaser.Math.Clamp(value, min, max) = Math.max(min, Math.min(max, value))`. -/
def clamp (value lo hi : Int) : Int := max lo (min hi value)

/-- `checkGameConditions` of the MVP version: loss checks in source order
(opinion, then money, then turns), `none` meaning the game continues. -/
def checkGameConditions (s : State) : Option Outcome :=
  if s.publicOpinion ≤ 0 then
    some ⟨.lose, "Public opposition has shut down your project."⟩
  else if s.money ≤ 0 then
    some ⟨.lose, "You ran out of funding."⟩
  else if s.turnsRemaining ≤ 0 then
    some ⟨if s.researchPoints ≥ RESEARCH_NEEDED then .win else .lose,
          "Project deadline reached."⟩
  else none

/-- `endTurn` of the MVP version: run events, clamp
(`publicOpinion ∈ [0, INITIAL_OPINION]`, `money ∈ [0, ∞)`,
`risk ∈ [0, MAX_RISK]`), check end conditions, else advance the turn. -/
def endTurn (s : State) (d : ℚ) : State × Option Outcome :=
  let s1 := handleSeismicEvents s d
  let s2 := { s1 with
    publicOpinion := clamp s1.publicOpinion 0 INITIAL_OPINION,
    money := max 0 s1.money,
    risk := clamp s1.risk 0 MAX_RISK }
  match checkGameConditions s2 with
  | some o => (s2, some o)
  | none => ({ s2 with turn := s2.turn + 1 }, none)

/-- The outcome evaluation as the specification words it: continue iff
`publicOpinion > 0 ∧ money > 0 ∧ turnsRemaining > 0`; otherwise the
outcome is picked in priority order opinion depletion, money depletion,
time exhaustion, with a win at time exhaustion iff
`researchPoints ≥ RESEARCH_NEEDED`. -/
def specOutcomeEval (s : State) : Option Outcome :=
  if s.publicOpinion > 0 ∧ s.money > 0 ∧ s.turnsRemaining > 0 then none
  else if s.publicOpinion ≤ 0 then
    some ⟨.lose, "Public opposition has shut down your project."⟩
  else if s.money ≤ 0 then
    some ⟨.lose, "You ran out of funding."⟩
  else
    some ⟨if s.researchPoints ≥ RESEARCH_NEEDED then .win else .lose,
          "Project deadline reached."⟩

theorem clamp_bounds (v lo hi : Int) (h : lo ≤ hi) :
    lo ≤ clamp v lo hi ∧ clamp v lo hi ≤ hi :=
  ⟨le_max_left _ _, max_le h (min_le_left _ _)⟩

theorem endTurn_publicOpinion (s : State) (d : ℚ) :
    (endTurn s d).1.publicOpinion =
      clamp (handleSeismicEvents s d).publicOpinion 0 INITIAL_OPINION := by
  unfold endTurn
  dsimp only
  split <;> rfl

theorem endTurn_risk (s : State) (d : ℚ) :
    (endTurn s d).1.risk = clamp (handleSeismicEvents s d).risk 0 MAX_RISK := by
  unfold endTurn
  dsimp only
  split <;> rfl

end Mvp

namespace Geo

/-- `GameConfig.initialValues` / `GameConfig.maxValues` shape. -/
structure ResourceValues where
  money : Int
  turns : Int
  opinion : Int
  risk : Int
  research : Int
  deriving Repr, DecidableEq

structure Limits where
  researchNeeded : Int
  maxRisk : Int
  deriving Repr, DecidableEq

structure PassiveRewardsEffects where
  researchPerTurn : Int
  moneyPerTurn : Int
  opinionThreshold : Int
  deriving Repr, DecidableEq

structure EffectsConfig where
  highRiskThreshold : Int
  highRiskOpinionLoss : Int
  passiveRewards : PassiveRewardsEffects
  deriving Repr, DecidableEq

structure EventsConfig where
  baseChance : Int
  minTurnsBetweenEvents : Nat
  maxConsecutiveQuietTurns : Nat
  riskMultiplier : ℚ
  bigEventThreshold : Int
  deriving Repr, DecidableEq

structure WinConditions where
  research : Int
  maxRisk : Int
  deriving Repr, DecidableEq

structure PassiveRewardsConfig where
  baseResearchPerTurn : Int
  baseFundingPerTurn : Int
  deriving Repr, DecidableEq

/-- The `GameConfig` interface of `src/src/config/gameConfig.ts`. -/
structure GameConfig where
  initialValues : ResourceValues
  maxValues : ResourceValues
  limits : Limits
  effects : EffectsConfig
  events : EventsConfig
  winConditions : WinConditions
  passiveRewards : PassiveRewardsConfig
  deriving Repr, DecidableEq

/-- `DEFAULT_GAME_CONFIG` of `src/src/config/gameConfig.ts`. -/
def DEFAULT_GAME_CONFIG : GameConfig where
  initialValues := { money := 200, turns := 15, opinion := 100, risk := 10, research := 0 }
  maxValues := { money := 2000, turns := 15, opinion := 100, risk := 100, research := 100 }
  limits := { researchNeeded := 50, maxRisk := 100 }
  effects :=
    { highRiskThreshold := 50, highRiskOpinionLoss := 5,
      passiveRewards := { researchPerTurn := 1, moneyPerTurn := 5, opinionThreshold := 60 } }
  events :=
    { baseChance := 15, minTurnsBetweenEvents := 2, maxConsecutiveQuietTurns := 3,
      riskMultiplier := 7 / 10, bigEventThreshold := 70 }
  winConditions := { research := 50, maxRisk := 100 }
  passiveRewards := { baseResearchPerTurn := 1, baseFundingPerTurn := 5 }

/-- Effect deltas of an `ActionData` entry; fields may be absent in the
catalog literals, which `performAction` treats as zero. -/
structure ActionEffects where
  seismicRisk : Option Int
  publicOpinion : Option Int
  knowledge : Option Int
  money : Option Int
  deriving Repr, DecidableEq

/-- `ActionData` of `src/src/ui/ActionOption.ts` (localized `name` and
`description` fields omitted; they are presentational only). -/
structure ActionData where
  id : String
  cost : Int
  timeRequired : Int
  effects : Option ActionEffects
  deriving Repr, DecidableEq

/-- `theory_001` of `src/src/data/researchTheoretical.ts`. -/
def theory_001 : ActionData :=
  { id := "theory_001", cost := 10, timeRequired := 1,
    effects := some { seismicRisk := some (-5), publicOpinion := some 2,
                      knowledge := some 12, money := none } }

def theory_002 : ActionData :=
  { id := "theory_002", cost := 15, timeRequired := 2,
    effects := some { seismicRisk := some (-3), publicOpinion := none,
                      knowledge := some 18, money := some 10 } }

def theory_003 : ActionData :=
  { id := "theory_003", cost := 25, timeRequired := 3,
    effects := some { seismicRisk := some (-10), publicOpinion := none,
                      knowledge := some 10, money := none } }

/-- `researchTheoretical` catalog. -/
def researchTheoretical : List ActionData := [theory_001, theory_002, theory_003]

def practical_001 : ActionData :=
  { id := "practical_001", cost := 40, timeRequired := 3,
    effects := some { seismicRisk := some 10, publicOpinion := some (-2),
                      knowledge := some 15, money := none } }

def practical_002 : ActionData :=
  { id := "practical_002", cost := 30, timeRequired := 2,
    effects := some { seismicRisk := some (-5), publicOpinion := some 5,
                      knowledge := some 10, money := none } }

def practical_003 : ActionData :=
  { id := "practical_003", cost := 60, timeRequired := 5,
    effects := some { seismicRisk := some 5, publicOpinion := some 10,
                      knowledge := some 30, money := none } }

/-- `researchPractical` catalog. -/
def researchPractical : List ActionData := [practical_001, practical_002, practical_003]

def community_001 : ActionData :=
  { id := "community_001", cost := 5, timeRequired := 1,
    effects := some { seismicRisk := some 0, publicOpinion := some 15,
                      knowledge := some 0, money := some 0 } }

def community_002 : ActionData :=
  { id := "community_002", cost := 15, timeRequired := 2,
    effects := some { seismicRisk := some 0, publicOpinion := some 5,
                      knowledge := some 5, money := some 0 } }

def community_003 : ActionData :=
  { id := "community_003", cost := 15, timeRequired := 1,
    effects := some { seismicRisk := some 0, publicOpinion := some 20,
                      knowledge := some 5, money := some 5 } }

def community_004 : ActionData :=
  { id := "community_004", cost := 20, timeRequired := 2,
    effects := some { seismicRisk := some 0, publicOpinion := some 25,
                      knowledge := some 5, money := some (-10) } }

def community_005 : ActionData :=
  { id := "community_005", cost := 30, timeRequired := 2,
    effects := some { seismicRisk := some (-5), publicOpinion := some 15,
                      knowledge := some 0, money := some 30 } }

/-- `communityEngagement` catalog of `src/src/data/community.ts`. -/
def communityEngagement : List ActionData :=
  [community_001, community_002, community_003, community_004, community_005]

/-- Mutable game fields of the current `GameScene`
(`src/src/scenes/GameScene.ts`). -/
structure GameState where
  money : Int
  turnsRemaining : Int
  publicOpinion : Int
  risk : Int
  researchPoints : Int
  turn : Int
  turnsSinceLastEvent : Nat
  consecutiveQuietTurns : Nat
  hadEventLastTurn : Bool
  passiveRewardsApplied : Bool
  deriving Repr, DecidableEq

/-- The state built by `create()` from `config.initialValues`. -/
def initGameState (cfg : GameConfig) : GameState where
  money := cfg.initialValues.money
  turnsRemaining := cfg.initialValues.turns
  publicOpinion := cfg.initialValues.opinion
  risk := cfg.initialValues.risk
  researchPoints := cfg.initialValues.research
  turn := 1
  turnsSinceLastEvent := 0
  consecutiveQuietTurns := 0
  hadEventLastTurn := false
  passiveRewardsApplied := false

/-- `canAffordAction`: `money >= cost && turnsRemaining >= time`. -/
def canAffordAction (s : GameState) (cost time : Int) : Bool :=
  decide (cost ≤ s.money) && decide (time ≤ s.turnsRemaining)

inductive ActionOutcome where
  | insufficientMoney
  | insufficientTime
  | performed
  deriving Repr, DecidableEq

/-- `performAction` of the current `GameScene`: reject (leaving the state
untouched) when the action is unaffordable, reporting the money shortfall
first; otherwise subtract cost and time and add each effect delta
(missing deltas count as zero), then `endTurn()` (which only resets the
`passiveRewardsApplied` flag).  The `turn` counter is not advanced here. -/
def performAction (a : ActionData) (s : GameState) : ActionOutcome × GameState :=
  if !canAffordAction s a.cost a.timeRequired then
    if s.money < a.cost then (.insufficientMoney, s) else (.insufficientTime, s)
  else
    let s1 := { s with money := s.money - a.cost,
                       turnsRemaining := s.turnsRemaining - a.timeRequired }
    let s2 :=
      match a.effects with
      | none => s1
      | some e =>
        { s1 with risk := s1.risk + e.seismicRisk.getD 0,
                  publicOpinion := s1.publicOpinion + e.publicOpinion.getD 0,
                  researchPoints := s1.researchPoints + e.knowledge.getD 0,
                  money := s1.money + e.money.getD 0 }
    (.performed, { s2 with passiveRewardsApplied := false })

inductive ActionLookupOutcome where
  | invalidAction
  | ok (o : ActionOutcome)
  deriving Repr, DecidableEq

/-- The combined action catalog (theoretical, practical, community). -/
def actionCatalog : List ActionData :=
  researchTheoretical ++ researchPractical ++ communityEngagement

/-- Modelled from the spec: the code exposes no id-indexed entry point
(`GameScene.performAction` receives the `ActionData` object picked by the
UI), but the external-interface section requires an inbound call
`performAction(actionId)` that looks the id up in the catalog and, on an
unknown id, fails closed with a clear error and no state mutation.  The
lookup is modelled here; the state transition delegates to the embedded
`performAction`. -/
def performActionById (actionId : String) (s : GameState) :
    ActionLookupOutcome × GameState :=
  match actionCatalog.find? (fun a => a.id == actionId) with
  | none => (.invalidAction, s)
  | some a =>
    let r := performAction a s
    (.ok r.1, r.2)

/-- `EventEffects` of `src/src/data/events.ts`: all fields mandatory. -/
structure EventEffects where
  publicOpinion : Int
  seismicRisk : Int
  money : Int
  time : Int
  deriving Repr, DecidableEq

inductive EventCategory where
  | Seismic
  | Community
  | Financial
  | Environmental
  | Regulatory
  deriving Repr, DecidableEq

/-- `GameEvent` (localized `description` omitted; presentational only). -/
structure GameEvent where
  id : String
  category : EventCategory
  effects : EventEffects
  deriving Repr, DecidableEq

def SEISMIC_EVENTS : List GameEvent :=
  [ { id := "event_001", category := .Seismic,
      effects := { publicOpinion := -5, seismicRisk := 5, money := 0, time := 0 } },
    { id := "event_002", category := .Seismic,
      effects := { publicOpinion := -10, seismicRisk := 10, money := 0, time := 2 } },
    { id := "event_003", category := .Seismic,
      effects := { publicOpinion := -15, seismicRisk := 5, money := -10, time := 0 } } ]

def COMMUNITY_EVENTS : List GameEvent :=
  [ { id := "event_004", category := .Community,
      effects := { publicOpinion := -10, seismicRisk := 0, money := -5, time := 0 } },
    { id := "event_005", category := .Community,
      effects := { publicOpinion := 15, seismicRisk := 0, money := 10, time := 0 } },
    { id := "event_006", category := .Community,
      effects := { publicOpinion := -20, seismicRisk := 0, money := -5, time := 1 } },
    { id := "event_014", category := .Community,
      effects := { publicOpinion := 15, seismicRisk := 0, money := -5, time := 0 } } ]

def FINANCIAL_EVENTS : List GameEvent :=
  [ { id := "event_007", category := .Financial,
      effects := { publicOpinion := 10, seismicRisk := 0, money := 40, time := 0 } },
    { id := "event_008", category := .Financial,
      effects := { publicOpinion := -5, seismicRisk := 0, money := -20, time := 0 } },
    { id := "event_013", category := .Financial,
      effects := { publicOpinion := 5, seismicRisk := 0, money := 35, time := 0 } } ]

def ENVIRONMENTAL_EVENTS : List GameEvent :=
  [ { id := "event_009", category := .Environmental,
      effects := { publicOpinion := -10, seismicRisk := 0, money := -15, time := 1 } },
    { id := "event_010", category := .Environmental,
      effects := { publicOpinion := -10, seismicRisk := 0, money := 0, time := 0 } } ]

def REGULATORY_EVENTS : List GameEvent :=
  [ { id := "event_011", category := .Regulatory,
      effects := { publicOpinion := 5, seismicRisk := -10, money := -10, time := 2 } },
    { id := "event_012", category := .Regulatory,
      effects := { publicOpinion := -5, seismicRisk := 0, money := -10, time := 2 } } ]

/-- The combined `events` catalog. -/
def events : List GameEvent :=
  SEISMIC_EVENTS ++ COMMUNITY_EVENTS ++ FINANCIAL_EVENTS ++
    ENVIRONMENTAL_EVENTS ++ REGULATORY_EVENTS

/-- The optional per-category weights accepted by `getWeightedEvents`. -/
structure EventWeights where
  seismic : Option Int
  community : Option Int
  financial : Option Int
  environmental : Option Int
  regulatory : Option Int
  deriving Repr, DecidableEq

/-- JavaScript `w || 1`: an absent weight and a weight of `0` default to
`1`; every other value (negative values included) is kept. -/
def jsOrOne : Option Int → Int
  | none => 1
  | some v => if v = 0 then 1 else v

/-- `for (let i = 0; i < w; i++) out.push(...xs)`: the body runs
`w.toNat` times (a non-positive bound runs it zero times). -/
def repeatCat (w : Int) (xs : List GameEvent) : List GameEvent :=
  (List.replicate w.toNat xs).flatten

/-- `getWeightedEvents` of the current `src/data/events.ts`: each category
array is appended `w || 1` times, in catalog order. -/
def getWeightedEvents (options : EventWeights) : List GameEvent :=
  repeatCat (jsOrOne options.seismic) SEISMIC_EVENTS ++
    repeatCat (jsOrOne options.community) COMMUNITY_EVENTS ++
    repeatCat (jsOrOne options.financial) FINANCIAL_EVENTS ++
    repeatCat (jsOrOne options.environmental) ENVIRONMENTAL_EVENTS ++
    repeatCat (jsOrOne options.regulatory) REGULATORY_EVENTS

/-- The category weights computed by `handleSeismicEvents` from the game
state (risk, opinion and money adjustments). -/
def eventWeightsFor (cfg : GameConfig) (s : GameState) : EventWeights :=
  let w0 : EventWeights :=
    { seismic := some 1, community := some 1, financial := some 1,
      environmental := some 1, regulatory := some 1 }
  let w1 :=
    if cfg.events.bigEventThreshold ≤ s.risk then
      { w0 with seismic := some 3, regulatory := some 2 }
    else if cfg.effects.highRiskThreshold ≤ s.risk then
      { w0 with seismic := some 2 }
    else w0
  let w2 := if s.publicOpinion < 40 then { w1 with community := some 2 } else w1
  if s.money < 50 then { w2 with financial := some 2 } else w2

/-- The high-impact predicate of `handleSeismicEvents`
(`(e.effects.publicOpinion && e.effects.publicOpinion < -10) ||
(e.effects.money && e.effects.money < -30)`; a zero delta is falsy). -/
def highImpactEvent (e : GameEvent) : Bool :=
  (decide (e.effects.publicOpinion ≠ 0) && decide (e.effects.publicOpinion < -10)) ||
    (decide (e.effects.money ≠ 0) && decide (e.effects.money < -30))

/-- The candidate pool built by `handleSeismicEvents` when an event fires:
weighted pool, high-impact duplication at high risk, player-protection
filters, and the safe-subset / full-catalog fallback cascade. -/
def possibleEventsFor (cfg : GameConfig) (s : GameState) : List GameEvent :=
  let p0 := getWeightedEvents (eventWeightsFor cfg s)
  let p1 :=
    if cfg.events.bigEventThreshold ≤ s.risk then p0 ++ events.filter highImpactEvent
    else p0
  -- `!event.effects.money || event.effects.money > -20` (0 is falsy)
  let p2 :=
    if s.money < 50 then
      p1.filter (fun e => decide (e.effects.money = 0) || decide (-20 < e.effects.money))
    else p1
  -- `!event.effects.time || event.effects.time === 0`: both disjuncts say 0
  let p3 :=
    if s.turnsRemaining < 3 then
      p2.filter (fun e => decide (e.effects.time = 0) || decide (e.effects.time = 0))
    else p2
  let p4 :=
    if s.hadEventLastTurn then
      p3.filter (fun e =>
        decide (-15 ≤ e.effects.publicOpinion) && decide (-40 ≤ e.effects.money))
    else p3
  if p4.isEmpty then
    let fallback := events.filter (fun e =>
      decide (-10 < e.effects.publicOpinion) && decide (-15 < e.effects.money) &&
        decide (e.effects.time = 0))
    if fallback.isEmpty then events else fallback
  else p4

/-- `possibleEvents[Math.floor(Math.random() * possibleEvents.length)]`;
`d` is the `Math.random()` draw.  `none` models the out-of-range access
that a draw outside `[0,1)` would cause. -/
def selectEvent (cfg : GameConfig) (s : GameState) (d : ℚ) : Option GameEvent :=
  let pool := possibleEventsFor cfg s
  let idx : Int := ⌊d * (pool.length : ℚ)⌋
  if idx < 0 then none else pool.get? idx.toNat

/-- The event-fire decision of `handleSeismicEvents`, taken on the state
whose `turnsSinceLastEvent` has already been incremented. -/
def eventFires (cfg : GameConfig) (s : GameState) (d : ℚ) : Bool :=
  let forced := decide (cfg.events.maxConsecutiveQuietTurns ≤ s.consecutiveQuietTurns)
  let blocked := decide (s.turnsSinceLastEvent < cfg.events.minTurnsBetweenEvents)
  forced ||
    (!blocked &&
      decide (d * 100 < (cfg.events.baseChance : ℚ) + (s.risk : ℚ) * cfg.events.riskMultiplier))

/-- The trailing step of `handleSeismicEvents`: at high risk the public
grows worried even without a quake. -/
def applyHighRiskWorry (cfg : GameConfig) (s : GameState) : GameState :=
  if cfg.effects.highRiskThreshold < s.risk then
    { s with publicOpinion := s.publicOpinion - cfg.effects.highRiskOpinionLoss }
  else s

/-- `handleSeismicEvents` of the current `GameScene`: increment the pacing
counter, decide whether an event fires (`dFire` draw), select and apply an
event (`dSelect` draw) or record a quiet turn, then apply the high-risk
opinion penalty. -/
def handleSeismicEvents (cfg : GameConfig) (s : GameState) (dFire dSelect : ℚ) :
    Option GameState :=
  let s1 := { s with turnsSinceLastEvent := s.turnsSinceLastEvent + 1 }
  let afterEvent : Option GameState :=
    if eventFires cfg s1 dFire then
      (selectEvent cfg s1 dSelect).map (fun e =>
        { s1 with publicOpinion := s1.publicOpinion + e.effects.publicOpinion,
                  money := s1.money + e.effects.money,
                  risk := s1.risk + e.effects.seismicRisk,
                  turnsRemaining := s1.turnsRemaining - e.effects.time,
                  turnsSinceLastEvent := 0,
                  consecutiveQuietTurns := 0,
                  hadEventLastTurn := true })
    else
      some { s1 with consecutiveQuietTurns := s1.consecutiveQuietTurns + 1,
                     hadEventLastTurn := false }
  afterEvent.map (applyHighRiskWorry cfg)

/-- `applyPassiveRewards`: always add `baseResearchPerTurn` knowledge, and
`floor(baseFundingPerTurn * (publicOpinion / maxValues.opinion))` money.
The configured `effects.passiveRewards.opinionThreshold` is not read. -/
def applyPassiveRewards (cfg : GameConfig) (s : GameState) : GameState :=
  let knowledgeGain : Int := cfg.passiveRewards.baseResearchPerTurn
  let opinionPercent : ℚ := (s.publicOpinion : ℚ) / (cfg.maxValues.opinion : ℚ)
  let moneyGain : Int := ⌊(cfg.passiveRewards.baseFundingPerTurn : ℚ) * opinionPercent⌋
  { s with researchPoints := s.researchPoints + knowledgeGain,
           money := s.money + moneyGain }

/-- A state with too little money for `theory_001`, used as a witness. -/
def brokeState : GameState := { initGameState DEFAULT_GAME_CONFIG with money := 5 }

/-- The default start state after three quiet turns in a row
(`consecutiveQuietTurns = maxConsecutiveQuietTurns`), forcing an event. -/
def forcedStart : GameState :=
  { initGameState DEFAULT_GAME_CONFIG with consecutiveQuietTurns := 3 }

/-- Result of a quiet `handleSeismicEvents` step from the default start
state (draw 1 fires nothing). -/
def quietWitnessState : GameState :=
  { money := 200, turnsRemaining := 15, publicOpinion := 100, risk := 10,
    researchPoints := 0, turn := 1, turnsSinceLastEvent := 1,
    consecutiveQuietTurns := 1, hadEventLastTurn := false,
    passiveRewardsApplied := false }

/-- Result of the forced `handleSeismicEvents` step from `forcedStart`
(selection draw 0 picks `event_001`: opinion -5, risk +5). -/
def firedWitnessState : GameState :=
  { money := 200, turnsRemaining := 15, publicOpinion := 95, risk := 15,
    researchPoints := 0, turn := 1, turnsSinceLastEvent := 0,
    consecutiveQuietTurns := 0, hadEventLastTurn := true,
    passiveRewardsApplied := false }

/-- All-negative weights, a counterexample input for `getWeightedEvents`. -/
def allNegativeWeights : EventWeights :=
  { seismic := some (-1), community := some (-1), financial := some (-1),
    environmental := some (-1), regulatory := some (-1) }

/-- A mixed nonnegative weight assignment used as a witness. -/
def mixedWeights : EventWeights :=
  { seismic := none, community := some 0, financial := some 2,
    environmental := none, regulatory := some 1 }

/-- `optNonneg o` holds when a supplied weight is nonnegative (an absent
weight counts as nonnegative). -/
def optNonneg : Option Int → Bool
  | none => true
  | some v => decide (0 ≤ v)

theorem applyHighRiskWorry_hadEventLastTurn (cfg : GameConfig) (s : GameState) :
    (applyHighRiskWorry cfg s).hadEventLastTurn = s.hadEventLastTurn := by
  unfold applyHighRiskWorry
  split <;> rfl

theorem applyHighRiskWorry_turnsSinceLastEvent (cfg : GameConfig) (s : GameState) :
    (applyHighRiskWorry cfg s).turnsSinceLastEvent = s.turnsSinceLastEvent := by
  unfold applyHighRiskWorry
  split <;> rfl

/-- Case analysis of a successful `handleSeismicEvents` step: either the
fire decision was positive and the result has `hadEventLastTurn = true`
with the pacing counter reset, or it was negative and the result has
`hadEventLastTurn = false` with the pacing counter incremented. -/
theorem handleSeismicEvents_cases (cfg : GameConfig) (s : GameState)
    (dFire dSelect : ℚ) (s' : GameState)
    (h : handleSeismicEvents cfg s dFire dSelect = some s') :
    (eventFires cfg { s with turnsSinceLastEvent := s.turnsSinceLastEvent + 1 } dFire = true ∧
        s'.hadEventLastTurn = true ∧ s'.turnsSinceLastEvent = 0) ∨
      (eventFires cfg { s with turnsSinceLastEvent := s.turnsSinceLastEvent + 1 } dFire = false ∧
        s'.hadEventLastTurn = false ∧
        s'.turnsSinceLastEvent = s.turnsSinceLastEvent + 1) := by
  unfold handleSeismicEvents at h
  dsimp only at h
  by_cases hf :
      eventFires cfg { s with turnsSinceLastEvent := s.turnsSinceLastEvent + 1 } dFire = true
  · left
    rw [if_pos hf] at h
    cases hsel : selectEvent cfg { s with turnsSinceLastEvent := s.turnsSinceLastEvent + 1 }
        dSelect with
    | none => rw [hsel] at h; simp at h
    | some e =>
      rw [hsel] at h
      simp only [Option.map_some'] at h
      obtain rfl := Option.some.inj h
      exact ⟨hf, by rw [applyHighRiskWorry_hadEventLastTurn],
        by rw [applyHighRiskWorry_turnsSinceLastEvent]⟩
  · right
    rw [if_neg hf] at h
    simp only [Option.map_some'] at h
    obtain rfl := Option.some.inj h
    exact ⟨Bool.not_eq_true _ ▸ Bool.of_not_eq_true hf,
      by rw [applyHighRiskWorry_hadEventLastTurn],
      by rw [applyHighRiskWorry_turnsSinceLastEvent]⟩

/-- The shape of the fallback cascade: if the base catalog is nonempty,
the cascade result is nonempty whatever the filtered pools are. -/
theorem cascade_ne_nil (p4 fallback base : List GameEvent) (hbase : base ≠ []) :
    (if p4.isEmpty then (if fallback.isEmpty then base else fallback) else p4) ≠ [] := by
  by_cases h : p4.isEmpty
  · rw [if_pos h]
    by_cases h2 : fallback.isEmpty
    · rw [if_pos h2]; exact hbase
    · rw [if_neg h2]
      intro hnil
      apply h2
      rw [hnil]
      rfl
  · rw [if_neg h]
    intro hnil
    apply h
    rw [hnil]
    rfl

/-- The fallback cascade never leaves the pool empty. -/
theorem possibleEventsFor_ne_nil (cfg : GameConfig) (s : GameState) :
    possibleEventsFor cfg s ≠ [] := by
  unfold possibleEventsFor
  dsimp only
  exact cascade_ne_nil _ _ _ (by decide)

/-- With a draw in `[0,1)` and a nonempty pool, the selection index is in
range. -/
theorem floor_mul_length_lt (d : ℚ) (_h0 : 0 ≤ d) (h1 : d < 1) (n : ℕ)
    (hn : 0 < n) : Int.toNat ⌊d * (n : ℚ)⌋ < n := by
  have h2 : ⌊d * (n : ℚ)⌋ < (n : ℤ) := by
    apply Int.floor_lt.mpr
    push_cast
    calc d * (n : ℚ) < 1 * (n : ℚ) := by
          apply mul_lt_mul_of_pos_right h1
          exact_mod_cast hn
    _ = (n : ℚ) := one_mul _
  omega

theorem mem_repeatCat {e : GameEvent} {xs : List GameEvent} {k : Int}
    (hk : 1 ≤ k) (he : e ∈ xs) : e ∈ repeatCat k xs := by
  unfold repeatCat
  refine List.mem_flatten.mpr ⟨xs, List.mem_replicate.mpr ⟨by omega, rfl⟩, he⟩

theorem count_repeatCat (e : GameEvent) (xs : List GameEvent) (k : Int) :
    (repeatCat k xs).count e = k.toNat * xs.count e := by
  unfold repeatCat
  generalize k.toNat = n
  induction n with
  | zero => simp
  | succ n ih =>
    rw [List.replicate_succ, List.flatten_cons, List.count_append, ih]
    ring

theorem optNonneg_jsOrOne {o : Option Int} (h : optNonneg o = true) :
    1 ≤ jsOrOne o := by
  cases o with
  | none => simp [jsOrOne]
  | some v =>
    simp only [optNonneg, decide_eq_true_eq] at h
    show 1 ≤ if v = 0 then 1 else v
    split <;> omega

end Geo

/-- C1: end-of-turn evaluation continues the game iff opinion, money and
turns are all positive; terminal outcomes are chosen in priority order
opinion depletion > bankruptcy > time exhaustion, and at time exhaustion
the outcome is a win iff `researchPoints ≥ RESEARCH_NEEDED` (boundary
inclusive). -/
theorem C1_outcome_evaluation (s : Mvp.State) :
    Mvp.checkGameConditions s = Mvp.specOutcomeEval s := by
  unfold Mvp.checkGameConditions Mvp.specOutcomeEval
  split_ifs <;> first | rfl | omega

/-- C2: for every state entering the MVP `endTurn` (i.e. after an arbitrary
action application) and every random draw, the resulting `publicOpinion`
and `risk` lie within their configured `[0, max]` bounds. -/
theorem C2_clamping_invariant (s : Mvp.State) (d : ℚ) :
    0 ≤ (Mvp.endTurn s d).1.publicOpinion ∧
      (Mvp.endTurn s d).1.publicOpinion ≤ Mvp.INITIAL_OPINION ∧
      0 ≤ (Mvp.endTurn s d).1.risk ∧
      (Mvp.endTurn s d).1.risk ≤ Mvp.MAX_RISK := by
  rw [Mvp.endTurn_publicOpinion, Mvp.endTurn_risk]
  obtain ⟨h1, h2⟩ := Mvp.clamp_bounds (Mvp.handleSeismicEvents s d).publicOpinion 0
    Mvp.INITIAL_OPINION (by norm_num [Mvp.INITIAL_OPINION])
  obtain ⟨h3, h4⟩ := Mvp.clamp_bounds (Mvp.handleSeismicEvents s d).risk 0
    Mvp.MAX_RISK (by norm_num [Mvp.MAX_RISK])
  exact ⟨h1, h2, h3, h4⟩

/-- C3: performing an action with insufficient money or insufficient time
fails with the corresponding insufficient-resources report and returns the
state unchanged (every resource field, the pacing counters and the `turn`
counter included). -/
theorem C3_insufficient_resources (a : Geo.ActionData) (s : Geo.GameState)
    (h : s.money < a.cost ∨ s.turnsRemaining < a.timeRequired) :
    Geo.performAction a s =
      ((if s.money < a.cost then .insufficientMoney else .insufficientTime), s) := by
  have hc : Geo.canAffordAction s a.cost a.timeRequired = false := by
    unfold Geo.canAffordAction
    rcases h with h | h <;> simp <;> omega
  unfold Geo.performAction
  rw [hc]
  split_ifs <;> first | rfl | simp_all

/-- Witness for C3: `theory_001` costs 10, `brokeState` has 5 money, and the
action is rejected with the state returned unchanged. -/
theorem C3_insufficient_resources_witness :
    Geo.brokeState.money < Geo.theory_001.cost ∧
      Geo.performAction Geo.theory_001 Geo.brokeState =
        ((if Geo.brokeState.money < Geo.theory_001.cost then .insufficientMoney
          else .insufficientTime), Geo.brokeState) :=
  ⟨by decide, C3_insufficient_resources Geo.theory_001 Geo.brokeState (Or.inl (by decide))⟩

/-- C7 counterexample: applying `theory_001` to the default start state
leaves `publicOpinion = 102` in the game state before events run; it is not
clamped to 100 at this point (display-side clamping happens only in
`updateResourceDisplay`). -/
theorem C7_counterexample :
    (Geo.performAction Geo.theory_001 (Geo.initGameState Geo.DEFAULT_GAME_CONFIG)).2.publicOpinion ≠ 100 := by
  decide

/-- C7 (amended): applying `theory_001` (cost 10, time 1, effects
knowledge +12, opinion +2, risk -5) to the default start state
{money 200, turns 15, opinion 100, risk 10, research 0} yields, before
events run, money 190, turns 14, opinion 102 (not yet clamped), risk 5
and research 12. -/
theorem C7_scenario_action_application :
    (Geo.performAction Geo.theory_001 (Geo.initGameState Geo.DEFAULT_GAME_CONFIG)).1 = .performed ∧
      (Geo.performAction Geo.theory_001 (Geo.initGameState Geo.DEFAULT_GAME_CONFIG)).2.money = 190 ∧
      (Geo.performAction Geo.theory_001 (Geo.initGameState Geo.DEFAULT_GAME_CONFIG)).2.turnsRemaining = 14 ∧
      (Geo.performAction Geo.theory_001 (Geo.initGameState Geo.DEFAULT_GAME_CONFIG)).2.publicOpinion = 102 ∧
      (Geo.performAction Geo.theory_001 (Geo.initGameState Geo.DEFAULT_GAME_CONFIG)).2.risk = 5 ∧
      (Geo.performAction Geo.theory_001 (Geo.initGameState Geo.DEFAULT_GAME_CONFIG)).2.researchPoints = 12 := by
  decide

/-- C8: an `actionId` not present in the catalog makes `performActionById`
fail closed: the invalid-action error is surfaced and the state is
returned unchanged. -/
theorem C8_invalid_action_id (actionId : String) (s : Geo.GameState)
    (h : ∀ a ∈ Geo.actionCatalog, a.id ≠ actionId) :
    Geo.performActionById actionId s = (.invalidAction, s) := by
  have hfind : Geo.actionCatalog.find? (fun a => a.id == actionId) = none := by
    rw [List.find?_eq_none]
    intro a ha
    simpa using h a ha
  unfold Geo.performActionById
  rw [hfind]

/-- Witness for C8: `"no_such_action"` is not a catalog id and the call
fails closed on the default start state. -/
theorem C8_invalid_action_id_witness :
    (∀ a ∈ Geo.actionCatalog, a.id ≠ "no_such_action") ∧
      Geo.performActionById "no_such_action" (Geo.initGameState Geo.DEFAULT_GAME_CONFIG) =
        (.invalidAction, Geo.initGameState Geo.DEFAULT_GAME_CONFIG) :=
  ⟨by decide, C8_invalid_action_id "no_such_action" _ (by decide)⟩

/-- C9: per turn advance, `applyPassiveRewards` adds exactly
`baseResearchPerTurn` research points and exactly
`floor(baseFundingPerTurn * publicOpinion / maxValues.opinion)` money, and
its result does not depend on the configured
`effects.passiveRewards.opinionThreshold` (in particular income is granted
at opinions below the threshold). -/
theorem C9_passive_rewards (cfg : Geo.GameConfig) (s : Geo.GameState)
    (_hmax : 0 < cfg.maxValues.opinion) :
    (Geo.applyPassiveRewards cfg s).researchPoints =
        s.researchPoints + cfg.passiveRewards.baseResearchPerTurn ∧
      (Geo.applyPassiveRewards cfg s).money =
        s.money + ⌊((cfg.passiveRewards.baseFundingPerTurn : ℚ) * (s.publicOpinion : ℚ)) /
          (cfg.maxValues.opinion : ℚ)⌋ ∧
      ∀ t : Int,
        Geo.applyPassiveRewards
          { cfg with effects :=
            { cfg.effects with passiveRewards :=
              { cfg.effects.passiveRewards with opinionThreshold := t } } } s =
          Geo.applyPassiveRewards cfg s := by
  refine ⟨rfl, ?_, fun t => rfl⟩
  unfold Geo.applyPassiveRewards
  dsimp only
  rw [mul_div_assoc]

/-- C4: for every successful turn of event handling, the fire decision
recorded in the resulting state equals
`forced || (!blocked && draw*100 < baseChance + risk*riskMultiplier)`
(with `turnsSinceLastEvent` incremented before the `blocked` test), and in
particular the decision is `true` whenever `consecutiveQuietTurns` has
reached `maxConsecutiveQuietTurns`, regardless of the draw and of the
blocking condition. -/
theorem C4_event_fire_decision (cfg : Geo.GameConfig) (s : Geo.GameState)
    (dFire dSelect : ℚ) (s' : Geo.GameState)
    (h : Geo.handleSeismicEvents cfg s dFire dSelect = some s') :
    s'.hadEventLastTurn =
        (decide (cfg.events.maxConsecutiveQuietTurns ≤ s.consecutiveQuietTurns) ||
          (!decide (s.turnsSinceLastEvent + 1 < cfg.events.minTurnsBetweenEvents) &&
            decide (dFire * 100 <
              (cfg.events.baseChance : ℚ) + (s.risk : ℚ) * cfg.events.riskMultiplier))) ∧
      (cfg.events.maxConsecutiveQuietTurns ≤ s.consecutiveQuietTurns →
        s'.hadEventLastTurn = true) := by
  have hcases := Geo.handleSeismicEvents_cases cfg s dFire dSelect s' h
  constructor
  · show s'.hadEventLastTurn =
      Geo.eventFires cfg { s with turnsSinceLastEvent := s.turnsSinceLastEvent + 1 } dFire
    rcases hcases with ⟨hf, he, _⟩ | ⟨hf, he, _⟩ <;> rw [he, hf]
  · intro hq
    rcases hcases with ⟨_, he, _⟩ | ⟨hf, _, _⟩
    · exact he
    · exfalso
      unfold Geo.eventFires at hf
      simp only [Bool.or_eq_false_iff, decide_eq_false_iff_not] at hf
      exact hf.1 hq

/-- Witness for C4: from the default start state after three quiet turns,
the event fires even though the fire draw (1) would say no. -/
theorem C4_event_fire_decision_witness :
    Geo.handleSeismicEvents Geo.DEFAULT_GAME_CONFIG Geo.forcedStart 1 0 =
        some Geo.firedWitnessState ∧
      Geo.DEFAULT_GAME_CONFIG.events.maxConsecutiveQuietTurns ≤
        Geo.forcedStart.consecutiveQuietTurns ∧
      Geo.firedWitnessState.hadEventLastTurn = true := by
  have hsel : Geo.selectEvent Geo.DEFAULT_GAME_CONFIG
      { Geo.forcedStart with
        turnsSinceLastEvent := Geo.forcedStart.turnsSinceLastEvent + 1 } 0 =
      some ⟨"event_001", .Seismic,
        { publicOpinion := -5, seismicRisk := 5, money := 0, time := 0 }⟩ := by
    unfold Geo.selectEvent
    dsimp only
    rw [zero_mul, Int.floor_zero]
    rfl
  have hW : Geo.handleSeismicEvents Geo.DEFAULT_GAME_CONFIG Geo.forcedStart 1 0 =
      some Geo.firedWitnessState := by
    unfold Geo.handleSeismicEvents
    dsimp only
    rw [if_pos (show Geo.eventFires Geo.DEFAULT_GAME_CONFIG
      { Geo.forcedStart with
        turnsSinceLastEvent := Geo.forcedStart.turnsSinceLastEvent + 1 } 1 = true from rfl)]
    rw [hsel]
    rfl
  exact ⟨hW, by decide,
    (C4_event_fire_decision Geo.DEFAULT_GAME_CONFIG Geo.forcedStart 1 0
      Geo.firedWitnessState hW).2 (by decide)⟩

/-- C5: pacing of the event engine, per turn of event handling: when an
event fires without the forced override, the `turnsSinceLastEvent` counter
(incremented this turn) has reached `minTurnsBetweenEvents`; the counter
is reset to 0 on every firing and incremented on every quiet turn. -/
theorem C5_event_pacing (cfg : Geo.GameConfig) (s : Geo.GameState)
    (dFire dSelect : ℚ) (s' : Geo.GameState)
    (h : Geo.handleSeismicEvents cfg s dFire dSelect = some s') :
    (s'.hadEventLastTurn = true →
        s.consecutiveQuietTurns < cfg.events.maxConsecutiveQuietTurns →
        cfg.events.minTurnsBetweenEvents ≤ s.turnsSinceLastEvent + 1) ∧
      (s'.hadEventLastTurn = true → s'.turnsSinceLastEvent = 0) ∧
      (s'.hadEventLastTurn = false →
        s'.turnsSinceLastEvent = s.turnsSinceLastEvent + 1) := by
  have hcases := Geo.handleSeismicEvents_cases cfg s dFire dSelect s' h
  refine ⟨?_, ?_, ?_⟩
  · intro hev hunforced
    rcases hcases with ⟨hf, _, _⟩ | ⟨_, he, _⟩
    · unfold Geo.eventFires at hf
      dsimp only at hf
      simp only [Bool.or_eq_true, Bool.and_eq_true, Bool.not_eq_true',
        decide_eq_true_eq, decide_eq_false_iff_not] at hf
      rcases hf with hf | ⟨hblock, _⟩
      · omega
      · omega
    · rw [hev] at he
      exact absurd he (by decide)
  · intro he
    rcases hcases with ⟨_, _, ht⟩ | ⟨_, hq, _⟩
    · exact ht
    · rw [he] at hq; exact absurd hq (by decide)
  · intro he
    rcases hcases with ⟨_, hq, _⟩ | ⟨_, _, ht⟩
    · rw [he] at hq; exact absurd hq (by decide)
    · exact ht

/-- Witness for C5: a quiet step from the default start state increments
the pacing counter from 0 to 1. -/
theorem C5_event_pacing_witness :
    Geo.handleSeismicEvents Geo.DEFAULT_GAME_CONFIG
        (Geo.initGameState Geo.DEFAULT_GAME_CONFIG) 1 0 = some Geo.quietWitnessState ∧
      Geo.quietWitnessState.turnsSinceLastEvent =
        (Geo.initGameState Geo.DEFAULT_GAME_CONFIG).turnsSinceLastEvent + 1 := by
  have hW : Geo.handleSeismicEvents Geo.DEFAULT_GAME_CONFIG
      (Geo.initGameState Geo.DEFAULT_GAME_CONFIG) 1 0 = some Geo.quietWitnessState := by
    decide
  exact ⟨hW,
    (C5_event_pacing Geo.DEFAULT_GAME_CONFIG (Geo.initGameState Geo.DEFAULT_GAME_CONFIG)
      1 0 Geo.quietWitnessState hW).2.2 (by decide)⟩

/-- C6: whenever an event fires, selection terminates with exactly one
event: the fallback cascade (safe subset, then full catalog) keeps the
candidate pool nonempty for every game state, so with any selection draw
in `[0,1)` the uniform pick returns an event. -/
theorem C6_event_selection_total (cfg : Geo.GameConfig) (s : Geo.GameState)
    (d : ℚ) (h0 : 0 ≤ d) (h1 : d < 1) :
    Geo.possibleEventsFor cfg s ≠ [] ∧ ∃ e, Geo.selectEvent cfg s d = some e := by
  have hne := Geo.possibleEventsFor_ne_nil cfg s
  refine ⟨hne, ?_⟩
  unfold Geo.selectEvent
  dsimp only
  have hlen : 0 < (Geo.possibleEventsFor cfg s).length := List.length_pos.mpr hne
  have hidx0 : (0 : Int) ≤ ⌊d * ((Geo.possibleEventsFor cfg s).length : ℚ)⌋ := by
    apply Int.floor_nonneg.mpr
    exact mul_nonneg h0 (by positivity)
  rw [if_neg (by omega)]
  have hlt := Geo.floor_mul_length_lt d h0 h1 _ hlen
  exact ⟨_, List.get?_eq_get hlt⟩

/-- Witness for C6: selection from the default start state with draw 0
returns an event. -/
theorem C6_event_selection_total_witness :
    (0 : ℚ) ≤ 0 ∧ (0 : ℚ) < 1 ∧
      (Geo.possibleEventsFor Geo.DEFAULT_GAME_CONFIG
          (Geo.initGameState Geo.DEFAULT_GAME_CONFIG) ≠ [] ∧
        ∃ e, Geo.selectEvent Geo.DEFAULT_GAME_CONFIG
          (Geo.initGameState Geo.DEFAULT_GAME_CONFIG) 0 = some e) :=
  ⟨le_refl 0, by norm_num,
    C6_event_selection_total Geo.DEFAULT_GAME_CONFIG
      (Geo.initGameState Geo.DEFAULT_GAME_CONFIG) 0 (le_refl 0) (by norm_num)⟩

/-- C10 counterexample: with every weight set to `-1` (nonzero, so the
`|| 1` defaulting keeps it, and the `for` loops run zero times),
`getWeightedEvents` returns the empty pool, contradicting the claim that
the returned pool always contains every catalog event and is never
empty. -/
theorem C10_counterexample : Geo.getWeightedEvents Geo.allNegativeWeights = [] := by
  decide

/-- C10 (amended): each category array appears `max(w, 0)` times in the
returned concatenation, where `w` is the supplied weight if nonzero and 1
otherwise; when every supplied weight is nonnegative the pool contains
every catalog event at least once and is nonempty. -/
theorem C10_weighted_pool (w : Geo.EventWeights) :
    (∀ e : Geo.GameEvent, (Geo.getWeightedEvents w).count e =
        (Geo.jsOrOne w.seismic).toNat * Geo.SEISMIC_EVENTS.count e +
          (Geo.jsOrOne w.community).toNat * Geo.COMMUNITY_EVENTS.count e +
          (Geo.jsOrOne w.financial).toNat * Geo.FINANCIAL_EVENTS.count e +
          (Geo.jsOrOne w.environmental).toNat * Geo.ENVIRONMENTAL_EVENTS.count e +
          (Geo.jsOrOne w.regulatory).toNat * Geo.REGULATORY_EVENTS.count e) ∧
      ((Geo.optNonneg w.seismic && Geo.optNonneg w.community &&
          Geo.optNonneg w.financial && Geo.optNonneg w.environmental &&
          Geo.optNonneg w.regulatory) = true →
        (∀ e ∈ Geo.events, e ∈ Geo.getWeightedEvents w) ∧
          Geo.getWeightedEvents w ≠ []) := by
  constructor
  · intro e
    unfold Geo.getWeightedEvents
    rw [List.count_append, List.count_append, List.count_append, List.count_append,
      Geo.count_repeatCat, Geo.count_repeatCat, Geo.count_repeatCat,
      Geo.count_repeatCat, Geo.count_repeatCat]
  · intro hw
    simp only [Bool.and_eq_true] at hw
    obtain ⟨⟨⟨⟨hs, hc⟩, hf⟩, he⟩, hr⟩ := hw
    have hmem : ∀ e ∈ Geo.events, e ∈ Geo.getWeightedEvents w := by
      intro e hev
      unfold Geo.events at hev
      unfold Geo.getWeightedEvents
      simp only [List.mem_append] at hev ⊢
      rcases hev with ((((h | h) | h) | h) | h)
      · exact Or.inl (Or.inl (Or.inl (Or.inl
          (Geo.mem_repeatCat (Geo.optNonneg_jsOrOne hs) h))))
      · exact Or.inl (Or.inl (Or.inl (Or.inr
          (Geo.mem_repeatCat (Geo.optNonneg_jsOrOne hc) h))))
      · exact Or.inl (Or.inl (Or.inr
          (Geo.mem_repeatCat (Geo.optNonneg_jsOrOne hf) h)))
      · exact Or.inl (Or.inr (Geo.mem_repeatCat (Geo.optNonneg_jsOrOne he) h))
      · exact Or.inr (Geo.mem_repeatCat (Geo.optNonneg_jsOrOne hr) h)
    refine ⟨hmem, fun hnil => ?_⟩
    have h1 : (⟨"event_001", .Seismic,
        { publicOpinion := -5, seismicRisk := 5, money := 0, time := 0 }⟩ :
        Geo.GameEvent) ∈ Geo.events := by decide
    have h2 := hmem _ h1
    rw [hnil] at h2
    exact List.not_mem_nil _ h2

/-- Witness for C10: a mixed assignment of absent, zero and positive
weights is nonnegative, and the resulting pool covers the catalog and is
nonempty. -/
theorem C10_weighted_pool_witness :
    ((Geo.optNonneg Geo.mixedWeights.seismic && Geo.optNonneg Geo.mixedWeights.community &&
        Geo.optNonneg Geo.mixedWeights.financial && Geo.optNonneg Geo.mixedWeights.environmental &&
        Geo.optNonneg Geo.mixedWeights.regulatory) = true) ∧
      ((∀ e ∈ Geo.events, e ∈ Geo.getWeightedEvents Geo.mixedWeights) ∧
        Geo.getWeightedEvents Geo.mixedWeights ≠ []) :=
  ⟨by decide, (C10_weighted_pool Geo.mixedWeights).2 (by decide)⟩

/-- Witness for C9: with the default configuration and a state whose
opinion (50) is below the configured threshold (60), passive rewards still
add 1 research point and `floor(5 * 50 / 100) = 2` money. -/
theorem C9_passive_rewards_witness :
    (0 : Int) < Geo.DEFAULT_GAME_CONFIG.maxValues.opinion ∧
      (Geo.applyPassiveRewards Geo.DEFAULT_GAME_CONFIG
          { Geo.initGameState Geo.DEFAULT_GAME_CONFIG with publicOpinion := 50 }).researchPoints =
        ({ Geo.initGameState Geo.DEFAULT_GAME_CONFIG with publicOpinion := 50 } :
            Geo.GameState).researchPoints +
          Geo.DEFAULT_GAME_CONFIG.passiveRewards.baseResearchPerTurn :=
  ⟨by decide,
    (C9_passive_rewards Geo.DEFAULT_GAME_CONFIG
      { Geo.initGameState Geo.DEFAULT_GAME_CONFIG with publicOpinion := 50 } (by decide)).1⟩
